import Mathlib

/-!
Shallow embedding of src/litellm/fine_tuning/main.py: the fine-tuning job
dispatcher (create_fine_tuning_job and acreate_fine_tuning_job), its layered
configuration resolution, timeout normalization, unsupported-provider error,
and the async bridge.

Modelling conventions, each matching a Python construct of the source:

* Optional string configuration values are Option String; Python truthiness
  treats None and the empty string as falsy (pyTruthy), and a Python
  `a or b` returns a when a is truthy and otherwise returns b unchanged
  (pyOr), so an all-falsy chain yields its last operand.
* A timeout value is either a numeric scalar (Python int/float, modelled as
  Rat) or an httpx.Timeout object with optional connect/read/write/pool
  components; Python float() on a numeric scalar is the identity on the
  represented number.
* The backend client (OpenAIFineTuningAPI.create_fine_tuning_job) is not part
  of the source fragment: following the spec, it is an explicit function
  parameter returning either a direct job or a deferred one (a coroutine),
  or an error.
* Modelled from the spec: litellm.utils.supports_httpx_timeout is not part of
  the source fragment; per the spec each provider descriptor carries a
  supports_structured_timeout flag, taken here as an explicit Bool parameter.
* Ambient contextvars state is modelled by passing a PyContext value to the
  functions that observe it; loop.run_in_executor runs a thunk under the
  executor worker context, while ctx.run substitutes the captured context.
-/

namespace LiteLLM.FineTuning

/-- Python truthiness of an optional string: None and the empty string are
falsy, every other string is truthy. -/
def pyTruthy : Option String → Bool
  | none => false
  | some s => if s = "" then false else true

/-- Python `a or b` over optional strings: a when a is truthy, else b. -/
def pyOr (a b : Option String) : Option String :=
  if pyTruthy a then a else b

/-- A Python timeout value: a numeric scalar (int/float) or an httpx.Timeout
object carrying optional connect/read/write/pool components. -/
inductive TimeoutVal where
  | num (x : Rat)
  | timeoutObj (connect read write pool : Option Rat)
deriving DecidableEq

/-- Python truthiness of a timeout value: the number 0 is falsy, every other
number is truthy, and an httpx.Timeout object is always truthy. -/
def tvTruthy : TimeoutVal → Bool
  | .num x => if x = 0 then false else true
  | .timeoutObj _ _ _ _ => true

/-- Python `a or b` where a is an optional timeout value (None is falsy). -/
def pyOrTV (a : Option TimeoutVal) (b : TimeoutVal) : TimeoutVal :=
  match a with
  | none => b
  | some v => if tvTruthy v then v else b

/-- Line 129-131 of the source:
timeout = optional_params.timeout or kwargs.get("request_timeout", 600) or 600. -/
def timeoutPre (optTimeout reqTimeout : Option TimeoutVal) : TimeoutVal :=
  let b := reqTimeout.getD (TimeoutVal.num 600)
  let ab := pyOrTV optTimeout b
  if tvTruthy ab then ab else TimeoutVal.num 600

/-- Lines 134-144 of the source: an httpx.Timeout is collapsed to its read
component (or 600 when that is absent or falsy) when the provider lacks
structured-timeout support, and otherwise falls through every branch
unchanged; a non-Timeout value goes through float(); the None branch is
unreachable because timeoutPre never yields None. -/
def normalizeTimeout (t : TimeoutVal) (supports : Bool) : TimeoutVal :=
  match t with
  | .timeoutObj c r w p =>
      if supports = false then
        TimeoutVal.num (match r with
          | some x => if x = 0 then 600 else x
          | none => 600)
      else
        TimeoutVal.timeoutObj c r w p
  | .num x => TimeoutVal.num x

/-- The complete timeout logic of lines 129-144. -/
def resolveTimeout (optTimeout reqTimeout : Option TimeoutVal) (supports : Bool) :
    TimeoutVal :=
  normalizeTimeout (timeoutPre optTimeout reqTimeout) supports

/-- Lines 109-114 of the source:
api_base = optional_params.api_base or litellm.api_base
or os.getenv("OPENAI_API_BASE") or "https://api.openai.com/v1". -/
def resolve_api_base (call procDefault env : Option String) : Option String :=
  pyOr (pyOr (pyOr call procDefault) env) (some "https://api.openai.com/v1")

/-- Lines 115-120 of the source:
organization = optional_params.organization or litellm.organization
or os.getenv("OPENAI_ORGANIZATION", None) or None. -/
def resolve_organization (call procDefault env : Option String) : Option String :=
  pyOr (pyOr (pyOr call procDefault) env) none

/-- Lines 122-127 of the source:
api_key = optional_params.api_key or litellm.api_key or litellm.openai_key
or os.getenv("OPENAI_API_KEY"). -/
def resolve_api_key (call procDefault openaiKey env : Option String) :
    Option String :=
  pyOr (pyOr (pyOr call procDefault) openaiKey) env

/-- The process-wide default object litellm, restricted to the attributes the
source reads. -/
structure LitellmGlobals where
  api_base : Option String
  organization : Option String
  api_key : Option String
  openai_key : Option String
deriving DecidableEq

/-- The environment variables the source reads. -/
structure EnvVars where
  OPENAI_API_BASE : Option String
  OPENAI_ORGANIZATION : Option String
  OPENAI_API_KEY : Option String
deriving DecidableEq

/-- A Python value that may be stored under the reserved kwargs key
acreate_fine_tuning_job; enough shapes to distinguish the boolean True from
other truthy values. -/
inductive PyVal where
  | pyBool (b : Bool)
  | pyInt (n : Int)
  | pyStr (s : String)
deriving DecidableEq

/-- The keyword-argument bag of the entry points, restricted to the keys the
source reads: the GenericLiteLLMParams fields api_base, organization,
api_key, timeout, max_retries, plus the raw keys request_timeout and
acreate_fine_tuning_job. A field holds none when the key is absent. -/
structure Kwargs where
  api_base : Option String
  organization : Option String
  api_key : Option String
  timeout : Option TimeoutVal
  max_retries : Option Int
  request_timeout : Option TimeoutVal
  acreate_fine_tuning_job : Option PyVal
deriving DecidableEq

/-- Modelled from the spec: optional domain hyperparameters passed through
opaquely to the backend (litellm.types.llms.openai.Hyperparameters is not
part of the source fragment). -/
structure Hyperparameters where
  n_epochs : Option Int
  batch_size : Option Int
  learning_rate_multiplier : Option Rat
deriving DecidableEq

/-- The request payload built at lines 148-156 of the source
(FineTuningJobCreate): a pass-through of the domain parameters. -/
structure FineTuningJobCreate where
  model : String
  training_file : String
  hyperparameters : Option Hyperparameters
  suffix : Option String
  validation_file : Option String
  integrations : Option (List String)
  seed : Option Int
deriving DecidableEq

/-- The arguments the source passes to
openai_fine_tuning_instance.create_fine_tuning_job at lines 158-166. -/
structure BackendArgs where
  api_base : Option String
  api_key : Option String
  organization : Option String
  create_fine_tuning_job_data : FineTuningJobCreate
  timeout : TimeoutVal
  max_retries : Option Int
  is_async : Bool
deriving DecidableEq

/-- The fields of litellm.exceptions.BadRequestError the source populates at
lines 168-179, with the attached response status code. -/
structure BadRequestError where
  message : String
  model : String
  llm_provider : String
  status_code : Nat
deriving DecidableEq

/-- An error escaping the dispatcher: either the locally synthesized
BadRequestError or an error raised by the backend call, passed through. -/
inductive DispatchError (E : Type) where
  | badRequest (e : BadRequestError)
  | backendError (e : E)
deriving DecidableEq

/-- What the backend call returns on success: a concrete job, or a deferred
one (a coroutine, produced when the backend is invoked with _is_async). -/
inductive BackendResult (Job : Type) where
  | job (j : Job)
  | coroutine (j : Job)
deriving DecidableEq

/-- Ambient contextvars state: a single call-local marker suffices to observe
context propagation. -/
structure PyContext where
  marker : Option String
deriving DecidableEq

/-- The positional parameters of the two entry points plus the kwargs bag. -/
structure CallArgs where
  model : String
  training_file : String
  hyperparameters : Option Hyperparameters
  suffix : Option String
  validation_file : Option String
  integrations : Option (List String)
  seed : Option Int
  custom_llm_provider : String
  kwargs : Kwargs
deriving DecidableEq

/-- Line 146 of the source:
_is_async = kwargs.pop("acreate_fine_tuning_job", False) is True.
Python `is True` is an identity test against the True singleton, so only the
boolean True selects async mode. -/
def isExactlyTrue : Option PyVal → Bool
  | some (.pyBool true) => true
  | _ => false

/-- Lines 105-156 of the source: the configuration resolution, timeout
normalization and payload construction performed inside the openai branch,
producing the arguments of the backend call. -/
def resolveBackendArgs (g : LitellmGlobals) (env : EnvVars) (supports : Bool)
    (args : CallArgs) : BackendArgs :=
  let k := args.kwargs
  { api_base := resolve_api_base k.api_base g.api_base env.OPENAI_API_BASE
    api_key := resolve_api_key k.api_key g.api_key g.openai_key env.OPENAI_API_KEY
    organization :=
      resolve_organization k.organization g.organization env.OPENAI_ORGANIZATION
    create_fine_tuning_job_data :=
      { model := args.model
        training_file := args.training_file
        hyperparameters := args.hyperparameters
        suffix := args.suffix
        validation_file := args.validation_file
        integrations := args.integrations
        seed := args.seed }
    timeout := resolveTimeout k.timeout k.request_timeout supports
    max_retries := k.max_retries
    is_async := isExactlyTrue k.acreate_fine_tuning_job }

/-- Lines 168-179 of the source: the BadRequestError raised for a provider
other than openai. -/
def unsupportedProviderError (provider : String) : BadRequestError :=
  { message := "LiteLLM doesn\x27t support " ++ provider ++
      " for \x27create_batch\x27. Only \x27openai\x27 is supported."
    model := "n/a"
    llm_provider := provider
    status_code := 400 }

/-- Lines 85-182 of the source: the blocking entry point. The backend is a
parameter observing the ambient context; the final
try/except-raise-unchanged is the identity on the outcome. -/
def create_fine_tuning_job {E Job : Type}
    (backend : PyContext → BackendArgs → Except E (BackendResult Job))
    (ctx : PyContext) (g : LitellmGlobals) (env : EnvVars) (supports : Bool)
    (args : CallArgs) : Except (DispatchError E) (BackendResult Job) :=
  if args.custom_llm_provider = "openai" then
    match backend ctx (resolveBackendArgs g env supports args) with
    | Except.ok response => Except.ok response
    | Except.error e => Except.error (DispatchError.backendError e)
  else
    Except.error
      (DispatchError.badRequest (unsupportedProviderError args.custom_llm_provider))

/-- Line 54 of the source: kwargs["acreate_fine_tuning_job"] = True. -/
def setAsyncFlag (args : CallArgs) : CallArgs :=
  { args with
    kwargs := { args.kwargs with
      acreate_fine_tuning_job := some (PyVal.pyBool true) } }

/-- Lines 76-79 of the source: await the response when it is a coroutine,
otherwise take it as is; either way the caller receives the concrete job. -/
def awaitResult {Job : Type} : BackendResult Job → Job
  | .job j => j
  | .coroutine j => j

/-- Line 75 of the source, loop.run_in_executor(None, thunk): the thunk runs
on an executor worker whose own ambient context is executorCtx. -/
def run_in_executor {α : Type} (executorCtx : PyContext)
    (thunk : PyContext → α) : α :=
  thunk executorCtx

/-- Lines 34-82 of the source: the non-blocking entry point. It sets the
reserved kwargs flag, captures the ambient context
(ctx = contextvars.copy_context()), wraps the blocking call so that it runs
under the captured context whatever the executor context is
(func_with_context = ctx.run applied to func), runs that on the executor,
and awaits a coroutine result. -/
def acreate_fine_tuning_job {E Job : Type}
    (backend : PyContext → BackendArgs → Except E (BackendResult Job))
    (callerCtx executorCtx : PyContext) (g : LitellmGlobals) (env : EnvVars)
    (supports : Bool) (args : CallArgs) : Except (DispatchError E) Job :=
  let args2 := setAsyncFlag args
  let func := fun (ambient : PyContext) =>
    create_fine_tuning_job backend ambient g env supports args2
  let func_with_context := fun (_ : PyContext) => func callerCtx
  let init_response := run_in_executor executorCtx func_with_context
  Except.map awaitResult init_response

/-- Modelled from the spec for refinement of the precedence chains: strict
precedence over a list of sources, first non-empty value wins, later sources
never affect the result; when every source is empty the hardcoded fallback is
returned. -/
def specFirstNonEmpty : List (Option String) → Option String → Option String
  | [], fallback => fallback
  | s :: rest, fallback =>
      if pyTruthy s then s else specFirstNonEmpty rest fallback

/-- Nonnegativity of the numeric components a timeout value exposes to the
normalization (a scalar, or the read component of an httpx.Timeout). -/
def tvNonNeg : TimeoutVal → Bool
  | .num x => if x < 0 then false else true
  | .timeoutObj _ r _ _ =>
      match r with
      | none => true
      | some x => if x < 0 then false else true

/-- Nonnegativity lifted to an optional timeout value. -/
def optNonNeg : Option TimeoutVal → Bool
  | none => true
  | some v => tvNonNeg v

/-- Whether a timeout value is a strictly positive numeric scalar. -/
def isPosNum : TimeoutVal → Bool
  | .num x => if 0 < x then true else false
  | .timeoutObj _ _ _ _ => false

/-- Concrete sample inputs used by closed witness statements. -/
def exG : LitellmGlobals :=
  { api_base := none, organization := none, api_key := none, openai_key := none }

def exEnv : EnvVars :=
  { OPENAI_API_BASE := none, OPENAI_ORGANIZATION := none, OPENAI_API_KEY := none }

def exCtx : PyContext := { marker := none }

def emptyKwargs : Kwargs :=
  { api_base := none, organization := none, api_key := none, timeout := none
    max_retries := none, request_timeout := none, acreate_fine_tuning_job := none }

def exampleArgs : CallArgs :=
  { model := "gpt-3.5-turbo", training_file := "file-abc123"
    hyperparameters := none, suffix := none, validation_file := none
    integrations := none, seed := none, custom_llm_provider := "openai"
    kwargs := emptyKwargs }

def groqArgs : CallArgs := { exampleArgs with custom_llm_provider := "groq" }

def asyncArgs : CallArgs :=
  { exampleArgs with
    kwargs := { emptyKwargs with
      acreate_fine_tuning_job := some (PyVal.pyBool true) } }

def constJobBackend : PyContext → BackendArgs → Except Unit (BackendResult Nat) :=
  fun _ _ => Except.ok (BackendResult.job 0)

def constCoroBackend : PyContext → BackendArgs → Except Unit (BackendResult Nat) :=
  fun _ _ => Except.ok (BackendResult.coroutine 0)

/-- A backend that reports the call-local marker it observes. -/
def markerBackend :
    PyContext → BackendArgs → Except Unit (BackendResult (Option String)) :=
  fun c _ => Except.ok (BackendResult.job c.marker)

/-- Claim C2: when create_fine_tuning_job receives the structured timeout
{connect=5, read=42, write=5, pool=5} and the provider lacks
structured-timeout support, the timeout passed to the backend is 42.0 (the
read component; 600 when the read component is absent), not 600.0 and not
the connect value. -/
theorem structured_timeout_collapse_read (reqT : Option TimeoutVal)
    (g : LitellmGlobals) (env : EnvVars) (args : CallArgs) :
    resolveTimeout
        (some (TimeoutVal.timeoutObj (some 5) (some 42) (some 5) (some 5)))
        reqT false
      = TimeoutVal.num 42
    ∧ resolveTimeout
        (some (TimeoutVal.timeoutObj (some 5) none (some 5) (some 5)))
        reqT false
      = TimeoutVal.num 600
    ∧ (resolveBackendArgs g env false
        { args with kwargs := { args.kwargs with
            timeout :=
              some (TimeoutVal.timeoutObj (some 5) (some 42) (some 5) (some 5))
        } }).timeout
      = TimeoutVal.num 42
    ∧ TimeoutVal.num 42 ≠ TimeoutVal.num 600
    ∧ TimeoutVal.num 42 ≠ TimeoutVal.num 5 := by
  refine ⟨rfl, rfl, rfl, by decide, by decide⟩

/-- Claim C4: request_timeout=120 with no timeout key resolves to an
effective timeout of 120.0, both at the timeout logic and as forwarded to
the backend; the timeout key takes precedence over request_timeout whenever
it is truthy. -/
theorem request_timeout_legacy_alias (sup : Bool) (g : LitellmGlobals)
    (env : EnvVars) (args : CallArgs) (t u : Rat) :
    resolveTimeout none (some (TimeoutVal.num 120)) sup = TimeoutVal.num 120
    ∧ (resolveBackendArgs g env sup
        { args with kwargs := { args.kwargs with
            timeout := none
            request_timeout := some (TimeoutVal.num 120) } }).timeout
      = TimeoutVal.num 120
    ∧ resolveTimeout (some (TimeoutVal.num t)) (some (TimeoutVal.num u)) sup
      = TimeoutVal.num (if t = 0 then (if u = 0 then 600 else u) else t) := by
  refine ⟨rfl, rfl, ?_⟩
  by_cases ht : t = 0 <;> by_cases hu : u = 0 <;>
    simp [resolveTimeout, timeoutPre, pyOrTV, tvTruthy, normalizeTimeout, ht, hu]

/-- Claim C5: any provider other than openai makes create_fine_tuning_job
raise a BadRequestError carrying the provider id and a 400 status, before
any backend call and independently of every configuration source; the error
message, however, names the operation as create_batch (and this theorem
exhibits that exact message at the failing input provider groq). -/
theorem unsupported_provider_error_eval {E Job : Type}
    (backend : PyContext → BackendArgs → Except E (BackendResult Job))
    (ctx : PyContext) (g : LitellmGlobals) (env : EnvVars) (sup : Bool) :
    create_fine_tuning_job backend ctx g env sup groqArgs
      = Except.error (DispatchError.badRequest
          { message := "LiteLLM doesn\x27t support groq for \x27create_batch\x27. Only \x27openai\x27 is supported."
            model := "n/a"
            llm_provider := "groq"
            status_code := 400 }) := by
  rfl

/-- Claim C7: every error reaches the caller with no silent recovery: the
dispatcher result is exactly the backend outcome (a whole success value, or
the backend error passed through unchanged in payload) when the provider is
openai, and exactly the locally synthesized BadRequestError otherwise. -/
theorem error_propagation_shape {E Job : Type}
    (backend : PyContext → BackendArgs → Except E (BackendResult Job))
    (ctx : PyContext) (g : LitellmGlobals) (env : EnvVars) (sup : Bool)
    (args : CallArgs) :
    create_fine_tuning_job backend ctx g env sup args
      = if args.custom_llm_provider = "openai" then
          Except.mapError DispatchError.backendError
            (backend ctx (resolveBackendArgs g env sup args))
        else
          Except.error (DispatchError.badRequest
            (unsupportedProviderError args.custom_llm_provider)) := by
  unfold create_fine_tuning_job
  by_cases hp : args.custom_llm_provider = "openai" <;> simp [hp]
  cases backend ctx (resolveBackendArgs g env sup args) <;>
    simp [Except.mapError]

/-- Claim C9: a falsy explicit override is treated as absent by the
truthiness-based chains: an explicit timeout of 0 resolves to 600.0 (and in
general behaves as an absent timeout), and an explicit empty-string api_key,
api_base or organization behaves exactly as an absent one, falling through
to the process default and then the environment variable. -/
theorem falsy_overrides_fall_through (sup : Bool) (rt : Option TimeoutVal)
    (pb eb pk okk ek po eo : Option String) :
    resolveTimeout (some (TimeoutVal.num 0)) none sup = TimeoutVal.num 600
    ∧ resolveTimeout (some (TimeoutVal.num 0)) rt sup = resolveTimeout none rt sup
    ∧ resolve_api_key (some "") pk okk ek = resolve_api_key none pk okk ek
    ∧ resolve_api_base (some "") pb eb = resolve_api_base none pb eb
    ∧ resolve_organization (some "") po eo = resolve_organization none po eo := by
  refine ⟨rfl, rfl, rfl, rfl, rfl⟩

/-- Claim C1: each configuration field is resolved by strict precedence,
call-level value first, then the process-wide default object, then the
environment variable, then the hardcoded fallback, a non-empty value
shutting out all later sources: the three string chains coincide with the
spec-side first-non-empty chain (api_base falling back to the well-known
endpoint, organization to absent, api_key also consulting the process-wide
litellm.openai_key between litellm.api_key and the environment, provided the
environment value is not the empty string), a truthy call-level timeout wins
outright with fallback 600, and max_retries is the call-level value with
fallback absent. -/
theorem config_precedence_strict
    (cb pb eb co po eo ck pk okk ek : Option String)
    (t : Rat) (rt : Option TimeoutVal) (sup : Bool)
    (g : LitellmGlobals) (env : EnvVars) (args : CallArgs)
    (hk : ek ≠ some "") :
    resolve_api_base cb pb eb
      = specFirstNonEmpty [cb, pb, eb] (some "https://api.openai.com/v1")
    ∧ resolve_organization co po eo = specFirstNonEmpty [co, po, eo] none
    ∧ resolve_api_key ck pk okk ek = specFirstNonEmpty [ck, pk, okk, ek] none
    ∧ resolveTimeout (some (TimeoutVal.num t)) rt sup
      = (if t = 0 then resolveTimeout none rt sup else TimeoutVal.num t)
    ∧ resolveTimeout none none sup = TimeoutVal.num 600
    ∧ (resolveBackendArgs g env sup args).max_retries = args.kwargs.max_retries := by
  refine ⟨?_, ?_, ?_, ?_, rfl, rfl⟩
  · by_cases h1 : pyTruthy cb <;> by_cases h2 : pyTruthy pb <;>
      by_cases h3 : pyTruthy eb <;>
      simp [resolve_api_base, specFirstNonEmpty, pyOr, h1, h2, h3]
  · by_cases h1 : pyTruthy co <;> by_cases h2 : pyTruthy po <;>
      by_cases h3 : pyTruthy eo <;>
      simp [resolve_organization, specFirstNonEmpty, pyOr, h1, h2, h3]
  · by_cases h1 : pyTruthy ck <;> by_cases h2 : pyTruthy pk <;>
      by_cases h3 : pyTruthy okk <;> by_cases h4 : pyTruthy ek <;>
      simp [resolve_api_key, specFirstNonEmpty, pyOr, h1, h2, h3, h4]
    all_goals
      cases ek with
      | none => rfl
      | some s =>
          simp [pyTruthy] at h4
          exact absurd (by rw [h4]) hk
  · by_cases ht : t = 0 <;>
      simp [resolveTimeout, timeoutPre, pyOrTV, tvTruthy, normalizeTimeout, ht]

/-- Witness for Claim C1 at concrete sources: a call-level api_key shuts out
the process default and the environment. -/
theorem config_precedence_strict_witness :
    resolve_api_key (some "call-key") (some "proc-key") none (some "env-key")
      = some "call-key" := by
  have h := config_precedence_strict (some "b") (some "b2") none
      (some "o") none none
      (some "call-key") (some "proc-key") none (some "env-key")
      1 none false exG exEnv exampleArgs (by decide)
  exact h.2.2.1.trans (by decide)

/-- The value entering normalization is always truthy: the or-chain of line
129-131 ends in the literal 600. -/
theorem timeoutPre_truthy (optT reqT : Option TimeoutVal) :
    tvTruthy (timeoutPre optT reqT) = true := by
  unfold timeoutPre
  by_cases h : tvTruthy (pyOrTV optT (reqT.getD (TimeoutVal.num 600))) = true
  · rw [if_pos h]
    exact h
  · rw [if_neg h]
    decide

/-- Nonnegative inputs keep the value entering normalization nonnegative. -/
theorem timeoutPre_nonNeg (optT reqT : Option TimeoutVal)
    (h1 : optNonNeg optT = true) (h2 : optNonNeg reqT = true) :
    tvNonNeg (timeoutPre optT reqT) = true := by
  have hb : tvNonNeg (reqT.getD (TimeoutVal.num 600)) = true := by
    cases reqT with
    | none => decide
    | some v => simpa [optNonNeg] using h2
  have hab : tvNonNeg (pyOrTV optT (reqT.getD (TimeoutVal.num 600))) = true := by
    cases optT with
    | none => simpa [pyOrTV] using hb
    | some v =>
        by_cases hv : tvTruthy v = true
        · simpa [pyOrTV, hv] using h1
        · simpa [pyOrTV, hv] using hb
  unfold timeoutPre
  by_cases h : tvTruthy (pyOrTV optT (reqT.getD (TimeoutVal.num 600))) = true
  · rw [if_pos h]
    exact hab
  · rw [if_neg h]
    decide

/-- Claim C3 counterexample: timeout normalization does not always produce a
positive numeric timeout: a scalar timeout of -5 passes through as -5.0
(no positivity is enforced), and a structured timeout is passed through as a
non-scalar object when the provider supports structured timeouts. -/
theorem timeout_normalization_not_always_positive :
    resolveTimeout (some (TimeoutVal.num (-5))) none false = TimeoutVal.num (-5)
    ∧ isPosNum (TimeoutVal.num (-5)) = false
    ∧ resolveTimeout
        (some (TimeoutVal.timeoutObj (some 5) (some 42) (some 5) (some 5)))
        none true
      = TimeoutVal.timeoutObj (some 5) (some 42) (some 5) (some 5)
    ∧ isPosNum (TimeoutVal.timeoutObj (some 5) (some 42) (some 5) (some 5))
      = false := by
  refine ⟨by decide, by decide, rfl, rfl⟩

/-- Claim C3 as amended: timeout normalization is a total function of the
modelled inputs (absent, numeric scalar, or structured) and, when the
scalar components supplied are nonnegative, it produces a strictly positive
numeric timeout except in the one pass-through case, a structured timeout
given to a provider that supports structured timeouts, which is returned
unchanged as a structured object; an absent timeout defaults to 600.0. -/
theorem timeout_normalization_amended (optT reqT : Option TimeoutVal)
    (sup : Bool) (h1 : optNonNeg optT = true) (h2 : optNonNeg reqT = true) :
    (isPosNum (resolveTimeout optT reqT sup) = true
      ∨ (sup = true ∧ ∃ c r w p,
          resolveTimeout optT reqT sup = TimeoutVal.timeoutObj c r w p))
    ∧ resolveTimeout none none sup = TimeoutVal.num 600 := by
  refine ⟨?_, rfl⟩
  have hT := timeoutPre_truthy optT reqT
  have hN := timeoutPre_nonNeg optT reqT h1 h2
  show isPosNum (normalizeTimeout (timeoutPre optT reqT) sup) = true ∨ _
  cases hpre : timeoutPre optT reqT with
  | num x =>
      rw [hpre] at hT hN
      left
      simp [tvTruthy] at hT
      simp [tvNonNeg] at hN
      have hx : 0 < x := lt_of_le_of_ne hN (Ne.symm hT)
      simp [normalizeTimeout, isPosNum, hx]
  | timeoutObj c r w p =>
      rw [hpre] at hN
      cases sup with
      | true =>
          right
          exact ⟨rfl, c, r, w, p, by simp [resolveTimeout, hpre, normalizeTimeout]⟩
      | false =>
          left
          cases r with
          | none => simp [normalizeTimeout, isPosNum]
          | some x =>
              simp [tvNonNeg] at hN
              by_cases hx : x = 0
              · simp [normalizeTimeout, isPosNum, hx]
              · have hpos : 0 < x := lt_of_le_of_ne hN (Ne.symm hx)
                simp [normalizeTimeout, isPosNum, hx, hpos]

/-- Witness for the amended Claim C3 at a concrete input: a scalar timeout
of 7 with no request_timeout and no structured-timeout support. -/
theorem timeout_normalization_amended_witness :
    (isPosNum (resolveTimeout (some (TimeoutVal.num 7)) none false) = true
      ∨ (false = true ∧ ∃ c r w p,
          resolveTimeout (some (TimeoutVal.num 7)) none false
            = TimeoutVal.timeoutObj c r w p))
    ∧ resolveTimeout none none false = TimeoutVal.num 600 :=
  timeout_normalization_amended (some (TimeoutVal.num 7)) none false
    (by decide) (by decide)

/-- Claim C6: for a backend returning a fixed job value (directly or as a
deferred result), the blocking entry point, with its result awaited where
the backend chose to defer, and the awaited non-blocking entry point agree
on every input, and both deliver the concrete fixed job whenever the
provider is openai (the bridge awaits a deferred backend result). -/
theorem sync_async_equivalence {E Job : Type}
    (backend : PyContext → BackendArgs → Except E (BackendResult Job))
    (j : Job) (callerCtx executorCtx : PyContext) (g : LitellmGlobals)
    (env : EnvVars) (sup : Bool) (args : CallArgs)
    (hb : ∀ c x, backend c x = Except.ok (BackendResult.job j)
        ∨ backend c x = Except.ok (BackendResult.coroutine j)) :
    Except.map awaitResult
        (create_fine_tuning_job backend callerCtx g env sup args)
      = acreate_fine_tuning_job backend callerCtx executorCtx g env sup args
    ∧ acreate_fine_tuning_job backend callerCtx executorCtx g env sup args
      = (if args.custom_llm_provider = "openai" then Except.ok j
         else Except.error (DispatchError.badRequest
                (unsupportedProviderError args.custom_llm_provider))) := by
  have key : ∀ (c : PyContext) (a : CallArgs),
      Except.map awaitResult (create_fine_tuning_job backend c g env sup a)
        = (if a.custom_llm_provider = "openai" then Except.ok j
           else Except.error (DispatchError.badRequest
                  (unsupportedProviderError a.custom_llm_provider))) := by
    intro c a
    unfold create_fine_tuning_job
    by_cases hp : a.custom_llm_provider = "openai"
    · rw [if_pos hp, if_pos hp]
      rcases hb c (resolveBackendArgs g env sup a) with h | h <;> rw [h] <;> rfl
    · rw [if_neg hp, if_neg hp]
      rfl
  have e1 : acreate_fine_tuning_job backend callerCtx executorCtx g env sup args
      = Except.map awaitResult
          (create_fine_tuning_job backend callerCtx g env sup (setAsyncFlag args)) :=
    rfl
  have e2 := key callerCtx (setAsyncFlag args)
  have e3 := key callerCtx args
  have hprov : (setAsyncFlag args).custom_llm_provider = args.custom_llm_provider :=
    rfl
  rw [hprov] at e2
  exact ⟨e3.trans (e1.trans e2).symm, e1.trans e2⟩

/-- Witness for Claim C6 at a concrete backend that always returns job 0. -/
theorem sync_async_equivalence_witness :
    Except.map awaitResult
        (create_fine_tuning_job constJobBackend exCtx exG exEnv true exampleArgs)
      = acreate_fine_tuning_job constJobBackend exCtx exCtx exG exEnv true
          exampleArgs
    ∧ acreate_fine_tuning_job constJobBackend exCtx exCtx exG exEnv true
          exampleArgs
      = (if exampleArgs.custom_llm_provider = "openai" then Except.ok 0
         else Except.error (DispatchError.badRequest
                (unsupportedProviderError exampleArgs.custom_llm_provider))) :=
  sync_async_equivalence constJobBackend 0 exCtx exCtx exG exEnv true exampleArgs
    (fun _ _ => Or.inl rfl)

/-- Claim C8: the non-blocking entry point behaves exactly as the blocking
call executed under the ambient context of the caller, awaited; the
executor worker context is irrelevant to the outcome, and a backend that
reads the call-local marker observes the marker the caller set. -/
theorem ambient_context_propagation {E Job : Type}
    (backend : PyContext → BackendArgs → Except E (BackendResult Job))
    (callerCtx executorCtx executorCtx2 : PyContext) (g : LitellmGlobals)
    (env : EnvVars) (sup : Bool) (args : CallArgs) :
    acreate_fine_tuning_job backend callerCtx executorCtx g env sup args
      = Except.map awaitResult
          (create_fine_tuning_job backend callerCtx g env sup (setAsyncFlag args))
    ∧ acreate_fine_tuning_job backend callerCtx executorCtx g env sup args
      = acreate_fine_tuning_job backend callerCtx executorCtx2 g env sup args
    ∧ (args.custom_llm_provider = "openai" → ∀ m : Option String,
        acreate_fine_tuning_job markerBackend { marker := m } executorCtx
            g env sup args
          = Except.ok m) := by
  refine ⟨rfl, rfl, ?_⟩
  intro hp m
  simp [acreate_fine_tuning_job, create_fine_tuning_job, run_in_executor,
    setAsyncFlag, markerBackend, hp, awaitResult, Except.map]

/-- Witness for Claim C8 at a concrete marker: the marker set by the caller
is what the backend observes through the bridge. -/
theorem ambient_context_propagation_witness :
    acreate_fine_tuning_job markerBackend { marker := some "trace-id" } exCtx
        exG exEnv true exampleArgs
      = Except.ok (some "trace-id") :=
  (ambient_context_propagation constJobBackend exCtx exCtx exCtx exG exEnv true
      exampleArgs).2.2 rfl (some "trace-id")

/-- Claim C10: the kwargs key acreate_fine_tuning_job is a reserved control
flag: async mode is selected exactly when its value is the boolean True
(any other value, truthy or not, selects blocking mode), the key influences
nothing else in the arguments the backend receives (it is popped, never
forwarded), and when it is True the blocking entry point returns the
deferred coroutine produced by the backend rather than a concrete job. -/
theorem acreate_flag_async_mode {E Job : Type}
    (backend : PyContext → BackendArgs → Except E (BackendResult Job))
    (j : Job) (ctx : PyContext) (g : LitellmGlobals) (env : EnvVars)
    (sup : Bool) (args : CallArgs)
    (hb : ∀ c x, x.is_async = true →
        backend c x = Except.ok (BackendResult.coroutine j))
    (hp : args.custom_llm_provider = "openai")
    (hflag : args.kwargs.acreate_fine_tuning_job = some (PyVal.pyBool true)) :
    (∀ v : PyVal, isExactlyTrue (some v) = true ↔ v = PyVal.pyBool true)
    ∧ (∀ v : Option PyVal,
        resolveBackendArgs g env sup
            { args with kwargs := { args.kwargs with
                acreate_fine_tuning_job := v } }
          = { resolveBackendArgs g env sup args with is_async := isExactlyTrue v })
    ∧ create_fine_tuning_job backend ctx g env sup args
      = Except.ok (BackendResult.coroutine j) := by
  refine ⟨?_, fun v => rfl, ?_⟩
  · intro v
    cases v with
    | pyBool b => cases b <;> simp [isExactlyTrue]
    | pyInt n => simp [isExactlyTrue]
    | pyStr s => simp [isExactlyTrue]
  · have hasync : (resolveBackendArgs g env sup args).is_async = true := by
      simp [resolveBackendArgs, hflag, isExactlyTrue]
    unfold create_fine_tuning_job
    rw [if_pos hp, hb ctx _ hasync]

/-- Witness for Claim C10 at a concrete input: with the flag set to True and
a backend that defers, the blocking entry point returns the coroutine. -/
theorem acreate_flag_async_mode_witness :
    create_fine_tuning_job constCoroBackend exCtx exG exEnv false asyncArgs
      = Except.ok (BackendResult.coroutine 0) :=
  (acreate_flag_async_mode constCoroBackend 0 exCtx exG exEnv false asyncArgs
      (fun _ _ _ => rfl) rfl rfl).2.2

end LiteLLM.FineTuning
